import Mathlib

/-!
Shallow embedding of the Sega Mega Drive maze-snake game (src/src/main.c,
maze snapshot dated March 03, 2025).  The grid, the snake, the maze walls and
the per-tick update are translated directly from the C source; hardware calls
(sprite engine, VDP, PSG) are modelled by the data they carry into the game
logic: sprite allocation success is a boolean parameter, the sprite slot pool
is a list of booleans (allocated or NULL), and `random()` outcomes are
explicit numeric parameters.
-/

/-- `Point` from main.c: a tile coordinate pair (s16 x, s16 y). -/
structure Point where
  x : Int
  y : Int
deriving DecidableEq, Repr

-- Game constants from main.c
def GRID_WIDTH : Nat := 40
def GRID_HEIGHT : Nat := 28
def SNAKE_START_X : Int := 20
def SNAKE_START_Y : Int := 14
def SNAKE_START_LENGTH : Nat := 3
def SNAKE_MAX_LENGTH : Nat := 80
def INITIAL_DELAY : Nat := 8
def MIN_DELAY : Nat := 3

-- Snake directions (match head sprite frames)
def DIR_UP : Nat := 0
def DIR_RIGHT : Nat := 1
def DIR_DOWN : Nat := 2
def DIR_LEFT : Nat := 3

-- Game states
def STATE_INTRO : Nat := 0
def STATE_PLAYING : Nat := 1
def STATE_GAMEOVER : Nat := 2

/-- The global game state of main.c restricted to the fields the game logic
reads and writes.  `spriteBody` models the body sprite pointer array
(`true` = sprite allocated, `false` = NULL); `spriteLimitMsg` records that
"SPRITE LIMIT!" was drawn and `youWinMsg` that "YOU WIN!" was drawn. -/
structure GameState where
  snakeBody : List Point
  direction : Nat
  nextDirection : Nat
  food : Point
  score : Nat
  gameState : Nat
  frameDelay : Nat
  mazeWalls : List Point
  spriteBody : List Bool
  spriteLimitMsg : Bool
  youWinMsg : Bool
deriving DecidableEq, Repr

/-- The `switch (direction)` of `updateGame`: move a cell one step in the
given direction (an unknown direction leaves the cell unchanged, as the C
switch has no default case). -/
def dirStep (p : Point) (dir : Nat) : Point :=
  if dir = DIR_UP then { p with y := p.y - 1 }
  else if dir = DIR_RIGHT then { p with x := p.x + 1 }
  else if dir = DIR_DOWN then { p with y := p.y + 1 }
  else if dir = DIR_LEFT then { p with x := p.x - 1 }
  else p

/-- The border test of `updateGame` (line 443):
`newHeadX <= 0 || newHeadX >= GRID_WIDTH - 1 || newHeadY <= 1 || newHeadY >= GRID_HEIGHT - 1`. -/
def hitsBorder (p : Point) : Bool :=
  p.x ≤ 0 || p.x ≥ (GRID_WIDTH : Int) - 1 || p.y ≤ 1 || p.y ≥ (GRID_HEIGHT : Int) - 1

/-- `checkCollision` from main.c (lines 560-568): scans the snake body
starting at index 1 (the head at index 0 is skipped), then the recorded maze
wall cells. -/
def checkCollision (snakeBody mazeWalls : List Point) (x y : Int) : Bool :=
  (snakeBody.drop 1).any (fun q => q.x == x && q.y == y) ||
  mazeWalls.any (fun q => q.x == x && q.y == y)

/-- The free-tile scan of `generateFood` (lines 537-546): collect every cell
with y in [2, GRID_HEIGHT-2] (outer loop) and x in [1, GRID_WIDTH-2]
(inner loop) for which `checkCollision` is false. -/
def freeTiles (snakeBody mazeWalls : List Point) : List Point :=
  (List.range (GRID_HEIGHT - 3)).flatMap (fun j =>
    (List.range (GRID_WIDTH - 2)).filterMap (fun i =>
      if checkCollision snakeBody mazeWalls ((1 + i : Nat) : Int) ((2 + j : Nat) : Int)
      then none
      else some ⟨((1 + i : Nat) : Int), ((2 + j : Nat) : Int)⟩))

/-- `generateFood` from main.c (lines 533-557), with `random() % freeCount`
modelled by `pick % freeCount`.  Returns `none` when the free-tile list is
empty, which in the source sets `gameState = STATE_GAMEOVER`, draws
"YOU WIN!" and returns with `food` untouched. -/
def generateFood (snakeBody mazeWalls : List Point) (pick : Nat) : Option Point :=
  let free := freeTiles snakeBody mazeWalls
  free[pick % free.length]?

/-- The tail of `updateGame` shared by every food-consumption path
(lines 482-492 and the final head commit): add 10 to the score, regenerate
the food (the "YOU WIN!" branch of `generateFood` sets the game state and
leaves `food` unchanged), decrement `frameDelay` when the new score is a
multiple of 50 and the delay is above `MIN_DELAY`, then commit the new head
over index 0 of the (already shifted) body. -/
def consumeFood (s : GameState) (nh : Point) (pick : Nat) : GameState :=
  let score := s.score + 10
  let s1 := { s with score := score }
  let s2 :=
    match generateFood s1.snakeBody s1.mazeWalls pick with
    | none => { s1 with gameState := STATE_GAMEOVER, youWinMsg := true }
    | some f => { s1 with food := f }
  let s3 :=
    if score % 50 == 0 && MIN_DELAY < s2.frameDelay
    then { s2 with frameDelay := s2.frameDelay - 1 }
    else s2
  { s3 with snakeBody := nh :: s3.snakeBody.tail }

/-- `updateGame` from main.c (lines 430-501).  `allocOk` models the result of
the `SPR_addSprite` call made when a new body sprite is needed; `pick` feeds
`generateFood`.  The body array shifts are expressed on the live prefix list:
the growth shift (`for i = snakeLength..1`) turns the body into
`head :: body`, the plain shift (`for i = snakeLength-1..1`) turns it into
`head :: body.dropLast`, and the sprite-limit failure path returns the first
`snakeLength - 1` cells of the shifted array without committing the head.
`newHead s` stands for the local `newHeadX`/`newHeadY` pair of the C code. -/
def newHead (s : GameState) : Point :=
  dirStep (s.snakeBody.headD ⟨0, 0⟩) s.nextDirection

def updateGame (s : GameState) (allocOk : Bool) (pick : Nat) : GameState :=
  if hitsBorder (newHead s) ||
      checkCollision s.snakeBody s.mazeWalls (newHead s).x (newHead s).y then
    { s with direction := s.nextDirection, gameState := STATE_GAMEOVER }
  else if checkCollision s.snakeBody s.mazeWalls (newHead s).x (newHead s).y then
    { s with direction := s.nextDirection, gameState := STATE_GAMEOVER }
  else if newHead s = s.food then
    if s.snakeBody.length < SNAKE_MAX_LENGTH then
      if s.snakeBody.length > 1 && !(s.spriteBody.getD (s.snakeBody.length - 2) false) then
        if !allocOk then
          { s with direction := s.nextDirection,
                   snakeBody := (s.snakeBody.headD ⟨0, 0⟩ :: s.snakeBody).take (s.snakeBody.length - 1),
                   spriteLimitMsg := true }
        else
          consumeFood
            { s with direction := s.nextDirection,
                     snakeBody := s.snakeBody.headD ⟨0, 0⟩ :: s.snakeBody,
                     spriteBody := s.spriteBody.set (s.snakeBody.length - 2) true }
            (newHead s) pick
      else
        consumeFood
          { s with direction := s.nextDirection,
                   snakeBody := s.snakeBody.headD ⟨0, 0⟩ :: s.snakeBody }
          (newHead s) pick
    else
      consumeFood
        { s with direction := s.nextDirection,
                 snakeBody := s.snakeBody.headD ⟨0, 0⟩ :: s.snakeBody.dropLast }
        (newHead s) pick
  else
    { s with direction := s.nextDirection, snakeBody := newHead s :: s.snakeBody.dropLast }

/-- The state of the direction buttons of joypad 1 as read by `handleInput`. -/
structure JoypadState where
  up : Bool
  right : Bool
  down : Bool
  left : Bool
deriving DecidableEq, Repr

/-- The directional-input block of `handleInput` (lines 421-426), executed
only in the PLAYING state while unpaused: each requested direction is taken
only when the current direction is not its exact opposite, otherwise the
previously buffered `nextDirection` is kept. -/
def handleInputDir (joy : JoypadState) (direction nextDirection : Nat) : Nat :=
  if joy.up && !(direction == DIR_DOWN) then DIR_UP
  else if joy.right && !(direction == DIR_LEFT) then DIR_RIGHT
  else if joy.down && !(direction == DIR_UP) then DIR_DOWN
  else if joy.left && !(direction == DIR_RIGHT) then DIR_LEFT
  else nextDirection

/-- The 180-degree reversal of a direction code (used to state the
no-reversal property; an unknown code is its own reversal). -/
def oppositeDir (d : Nat) : Nat :=
  if d = DIR_UP then DIR_DOWN
  else if d = DIR_DOWN then DIR_UP
  else if d = DIR_RIGHT then DIR_LEFT
  else if d = DIR_LEFT then DIR_RIGHT
  else d

/-- A joypad state with exactly one direction button pressed. -/
def onlyDirPressed (dir : Nat) : JoypadState :=
  ⟨decide (dir = DIR_UP), decide (dir = DIR_RIGHT),
   decide (dir = DIR_DOWN), decide (dir = DIR_LEFT)⟩

/-- The per-segment wall layout of `initGame` (lines 240-266): a segment has
orientation `isVertical = random() % 2`, length `3 + random() % 3`, an anchor
drawn from the interior minus a margin, and records each laid cell except one
equal to the snake start cell `(SNAKE_START_X, SNAKE_START_Y)`; the inner
loop also stops at the far border. -/
def wallSegCells (isVertical : Bool) (rLen rX rY : Nat) : List Point :=
  let len := 3 + rLen % 3
  if isVertical then
    let x := 2 + rX % (GRID_WIDTH - 4)
    let y := 3 + rY % (GRID_HEIGHT - len - 4)
    (List.range len).filterMap (fun i =>
      if y + i < GRID_HEIGHT - 1 then
        if x ≠ 20 ∨ y + i ≠ 14 then some ⟨(x : Int), ((y + i : Nat) : Int)⟩ else none
      else none)
  else
    let x := 2 + rX % (GRID_WIDTH - len - 3)
    let y := 3 + rY % (GRID_HEIGHT - 5)
    (List.range len).filterMap (fun i =>
      if x + i < GRID_WIDTH - 1 then
        if x + i ≠ 20 ∨ y ≠ 14 then some ⟨((x + i : Nat) : Int), (y : Int)⟩ else none
      else none)

/-- The initial snake of `initGame` (lines 288-292): head at the start cell,
body trailing left. -/
def initSnake : List Point :=
  (List.range SNAKE_START_LENGTH).map (fun i => ⟨SNAKE_START_X - i, SNAKE_START_Y⟩)

/-- `initGame` followed by `startGame` (lines 202-344, 390-393): generate the
maze from the supplied per-segment random draws (`numWalls = 10` segments),
lay out the initial snake, allocate its body sprites, place the first food
with `generateFood`, and reset score, speed and state.  Initial sprite
allocation is modelled as succeeding. -/
def initGame (rs : List (Bool × Nat × Nat × Nat)) (pick : Nat) : GameState :=
  let walls := (rs.take 10).flatMap (fun r => wallSegCells r.1 r.2.1 r.2.2.1 r.2.2.2)
  let sprites := (List.range (SNAKE_MAX_LENGTH - 1)).map (fun i => decide (i + 1 < SNAKE_START_LENGTH))
  let st : GameState :=
    { snakeBody := initSnake, direction := DIR_RIGHT, nextDirection := DIR_RIGHT,
      food := ⟨0, 0⟩, score := 0, gameState := STATE_PLAYING, frameDelay := INITIAL_DELAY,
      mazeWalls := walls, spriteBody := sprites, spriteLimitMsg := false, youWinMsg := false }
  match generateFood initSnake walls pick with
  | none => { st with gameState := STATE_GAMEOVER, youWinMsg := true }
  | some f => { st with food := f }

/-- The states reachable by the game loop in the PLAYING state: a fresh game,
a simulation tick, or an input sample updating the buffered direction. -/
inductive Reachable : GameState → Prop
| start : ∀ rs pick, Reachable (initGame rs pick)
| tick : ∀ s allocOk pick, Reachable s → Reachable (updateGame s allocOk pick)
| input : ∀ s joy, Reachable s → s.gameState = STATE_PLAYING →
    Reachable { s with nextDirection := handleInputDir joy s.direction s.nextDirection }

/-- Modelled from the spec: no src/main.c snapshot contains portal code; the
spec (sections 4.2 and 4.3) describes border portal pairs.  A pair links an
entry cell to an exit cell. -/
structure PortalPair where
  entryCell : Point
  exitCell : Point
deriving DecidableEq, Repr

/-- Modelled from the spec: exactly two portal pairs are carved out of the
border, one linking the top border row (y = 1) to the bottom border row
(y = GRID_HEIGHT - 1) at independent random columns, one linking the left
border column (x = 0) to the right border column (x = GRID_WIDTH - 1) at
independent random rows. -/
def mkPortals (cTop cBottom rLeft rRight : Nat) : List PortalPair :=
  [⟨⟨((2 + cTop % (GRID_WIDTH - 4) : Nat) : Int), 1⟩,
    ⟨((2 + cBottom % (GRID_WIDTH - 4) : Nat) : Int), (GRID_HEIGHT : Int) - 1⟩⟩,
   ⟨⟨0, ((3 + rLeft % (GRID_HEIGHT - 6) : Nat) : Int)⟩,
    ⟨(GRID_WIDTH : Int) - 1, ((3 + rRight % (GRID_HEIGHT - 6) : Nat) : Int)⟩⟩]

/-- Modelled from the spec: one-hop portal transit — if the candidate head
cell equals any portal endpoint, it is replaced by the linked endpoint of
the first matching pair, with no chained teleport resolution. -/
def resolvePortal : List PortalPair → Point → Point
  | [], p => p
  | pr :: rest, p =>
      if pr.entryCell = p then pr.exitCell
      else if pr.exitCell = p then pr.entryCell
      else resolvePortal rest p

/-! ### Concrete states used by counterexamples and witnesses -/

/-- The state used to exercise the sprite-limit failure path of C3: a snake
of length 3 whose second body sprite slot is NULL (the reachable pattern left
by an earlier allocation failure), about to eat the food to its right. -/
def spriteLimitState : GameState :=
  { snakeBody := [⟨20, 14⟩, ⟨19, 14⟩, ⟨18, 14⟩],
    direction := DIR_RIGHT, nextDirection := DIR_RIGHT,
    food := ⟨21, 14⟩, score := 10, gameState := STATE_PLAYING, frameDelay := 8,
    mazeWalls := [], spriteBody := [true, false],
    spriteLimitMsg := false, youWinMsg := false }

/-- A maximum-length snake about to eat, used to instantiate C9. -/
def maxLenState : GameState :=
  { snakeBody := List.replicate SNAKE_MAX_LENGTH ⟨10, 10⟩,
    direction := DIR_RIGHT, nextDirection := DIR_RIGHT,
    food := ⟨11, 10⟩, score := 0, gameState := STATE_PLAYING, frameDelay := 8,
    mazeWalls := [], spriteBody := List.replicate (SNAKE_MAX_LENGTH - 1) true,
    spriteLimitMsg := false, youWinMsg := false }

/-- A state whose maze walls cover the whole playable interior, exhausting
the free-tile scan; used to instantiate C6. -/
def exhaustedState : GameState :=
  { snakeBody := [⟨20, 14⟩, ⟨19, 14⟩, ⟨18, 14⟩],
    direction := DIR_RIGHT, nextDirection := DIR_RIGHT,
    food := ⟨21, 14⟩, score := 0, gameState := STATE_PLAYING, frameDelay := 8,
    mazeWalls := freeTiles [] [], spriteBody := [true, true],
    spriteLimitMsg := false, youWinMsg := false }

/-- A playing state at score 40 about to consume: the new score 50 triggers
the speed-up.  Used to instantiate C10. -/
def speedUpState : GameState :=
  { snakeBody := [⟨20, 14⟩, ⟨19, 14⟩, ⟨18, 14⟩],
    direction := DIR_RIGHT, nextDirection := DIR_RIGHT,
    food := ⟨21, 14⟩, score := 40, gameState := STATE_PLAYING, frameDelay := 8,
    mazeWalls := [], spriteBody := [true, true],
    spriteLimitMsg := false, youWinMsg := false }


/-! ### Helper lemmas -/

/-- The coordinate-pair scan used by `checkCollision` is list membership. -/
lemma any_point_eq (l : List Point) (x y : Int) :
    (l.any fun q => q.x == x && q.y == y) = true ↔ (⟨x, y⟩ : Point) ∈ l := by
  simp only [List.any_eq_true, Bool.and_eq_true, beq_iff_eq]
  constructor
  · rintro ⟨⟨qx, qy⟩, hq, rfl, rfl⟩
    exact hq
  · intro h
    exact ⟨⟨x, y⟩, h, rfl, rfl⟩

/-- `checkCollision` holds exactly on body cells of index 1 and above, and on
maze wall cells. -/
lemma checkCollision_iff (body walls : List Point) (x y : Int) :
    checkCollision body walls x y = true ↔
      (⟨x, y⟩ : Point) ∈ body.drop 1 ∨ (⟨x, y⟩ : Point) ∈ walls := by
  simp only [checkCollision, Bool.or_eq_true, any_point_eq]

lemma checkCollision_eq_false_iff (body walls : List Point) (x y : Int) :
    checkCollision body walls x y = false ↔
      (⟨x, y⟩ : Point) ∉ body.drop 1 ∧ (⟨x, y⟩ : Point) ∉ walls := by
  rw [← Bool.not_eq_true, checkCollision_iff]
  tauto

/-- Membership in the tail of a list, phrased with indices. -/
lemma mem_drop_one_iff (l : List Point) (p : Point) :
    p ∈ l.drop 1 ↔ ∃ i, 1 ≤ i ∧ i < l.length ∧ l[i]? = some p := by
  rw [List.mem_iff_getElem?]
  constructor
  · rintro ⟨j, hj⟩
    rw [List.getElem?_drop] at hj
    have hlen : 1 + j < l.length := by
      by_contra hc
      rw [List.getElem?_eq_none (by omega)] at hj
      exact Option.noConfusion hj
    exact ⟨1 + j, by omega, hlen, hj⟩
  · rintro ⟨i, h1, h2, h3⟩
    refine ⟨i - 1, ?_⟩
    rw [List.getElem?_drop]
    have : 1 + (i - 1) = i := by omega
    rw [this]
    exact h3

/-- Characterisation of the free-tile list of `generateFood`. -/
lemma mem_freeTiles (body walls : List Point) (p : Point) :
    p ∈ freeTiles body walls ↔
      (∃ j, j < GRID_HEIGHT - 3 ∧ ∃ i, i < GRID_WIDTH - 2 ∧
        p = ⟨((1 + i : Nat) : Int), ((2 + j : Nat) : Int)⟩) ∧
      checkCollision body walls p.x p.y = false := by
  simp only [freeTiles, List.mem_flatMap, List.mem_filterMap, List.mem_range]
  constructor
  · rintro ⟨j, hj, i, hi, hsome⟩
    by_cases hc : checkCollision body walls ((1 + i : Nat) : Int) ((2 + j : Nat) : Int) = true
    · rw [if_pos hc] at hsome
      exact Option.noConfusion hsome
    · rw [if_neg hc] at hsome
      obtain rfl := Option.some.inj hsome
      exact ⟨⟨j, hj, i, hi, rfl⟩, by simpa using hc⟩
  · rintro ⟨⟨j, hj, i, hi, rfl⟩, hcol⟩
    refine ⟨j, hj, i, hi, ?_⟩
    rw [if_neg]
    simp only [hcol]
    simp

/-- Covering the whole interior with walls leaves no free tile. -/
lemma freeTiles_allWalls (body : List Point) :
    freeTiles body (freeTiles [] []) = [] := by
  rw [List.eq_nil_iff_forall_not_mem]
  intro p hp
  rw [mem_freeTiles] at hp
  obtain ⟨hint, hcol⟩ := hp
  have hmem : p ∈ freeTiles [] [] := by
    rw [mem_freeTiles]
    exact ⟨hint, rfl⟩
  rw [checkCollision_eq_false_iff] at hcol
  exact hcol.2 hmem

/-- Field bookkeeping of the food-consumption tail: the score rises by
exactly 10, the sprite pool and messages are untouched, the head is committed
over the shifted body, and the frame delay drops by one exactly when the new
score is a multiple of 50 and the delay is above the floor. -/
lemma consumeFood_fields (s : GameState) (nh : Point) (pick : Nat) :
    (consumeFood s nh pick).score = s.score + 10 ∧
    (consumeFood s nh pick).spriteBody = s.spriteBody ∧
    (consumeFood s nh pick).spriteLimitMsg = s.spriteLimitMsg ∧
    (consumeFood s nh pick).direction = s.direction ∧
    (consumeFood s nh pick).snakeBody = nh :: s.snakeBody.tail ∧
    (consumeFood s nh pick).frameDelay =
      (if (s.score + 10) % 50 = 0 ∧ MIN_DELAY < s.frameDelay
       then s.frameDelay - 1 else s.frameDelay) := by
  unfold consumeFood
  cases hg : generateFood s.snakeBody s.mazeWalls pick <;>
    simp only [hg] <;> split_ifs <;> simp_all

lemma consumeFood_score (s : GameState) (nh : Point) (pick : Nat) :
    (consumeFood s nh pick).score = s.score + 10 :=
  (consumeFood_fields s nh pick).1

lemma consumeFood_gameState (s : GameState) (nh : Point) (pick : Nat) :
    (consumeFood s nh pick).gameState =
      (if generateFood s.snakeBody s.mazeWalls pick = none
       then STATE_GAMEOVER else s.gameState) := by
  unfold consumeFood
  cases hg : generateFood s.snakeBody s.mazeWalls pick <;>
    simp only [hg] <;> split_ifs <;> simp_all

/-- A true collision condition makes the tick transition to GAME_OVER and
leave every other field except `direction` unchanged. -/
lemma updateGame_collision_eq (s : GameState) (allocOk : Bool) (pick : Nat)
    (h : (hitsBorder (newHead s) ||
        checkCollision s.snakeBody s.mazeWalls (newHead s).x (newHead s).y) = true) :
    updateGame s allocOk pick =
      { s with direction := s.nextDirection, gameState := STATE_GAMEOVER } := by
  unfold updateGame
  simp only [h, if_true]

/-- Without a collision, the tick either consumes the food (score rises by
10) or leaves the game-state field untouched. -/
lemma updateGame_no_collision_disc (s : GameState) (allocOk : Bool) (pick : Nat)
    (h : (hitsBorder (newHead s) ||
        checkCollision s.snakeBody s.mazeWalls (newHead s).x (newHead s).y) = false) :
    (updateGame s allocOk pick).score = s.score + 10 ∨
    (updateGame s allocOk pick).gameState = s.gameState := by
  have hc : checkCollision s.snakeBody s.mazeWalls (newHead s).x (newHead s).y = false := by
    simp only [Bool.or_eq_false_iff] at h
    exact h.2
  unfold updateGame
  simp only [h, Bool.false_eq_true, if_false]
  simp only [hc, Bool.false_eq_true, if_false]
  split_ifs with h2 h3 h4 h5
  · right
    rfl
  · left
    rw [consumeFood_score]
  · left
    rw [consumeFood_score]
  · left
    rw [consumeFood_score]
  · right
    rfl

lemma updateGame_no_collision_ne (s : GameState) (allocOk : Bool) (pick : Nat)
    (hplay : s.gameState = STATE_PLAYING)
    (h : (hitsBorder (newHead s) ||
        checkCollision s.snakeBody s.mazeWalls (newHead s).x (newHead s).y) = false) :
    updateGame s allocOk pick ≠
      { s with direction := s.nextDirection, gameState := STATE_GAMEOVER } := by
  intro heq
  rcases updateGame_no_collision_disc s allocOk pick h with hs | hg
  · rw [heq] at hs
    simp at hs
  · rw [heq] at hg
    rw [hplay] at hg
    simp [STATE_GAMEOVER, STATE_PLAYING] at hg

lemma initGame_score (rs : List (Bool × Nat × Nat × Nat)) (pick : Nat) :
    (initGame rs pick).score = 0 := by
  unfold initGame
  cases hg : generateFood initSnake
      ((rs.take 10).flatMap fun r => wallSegCells r.1 r.2.1 r.2.2.1 r.2.2.2) pick <;>
    simp [hg]

lemma consumeFood_spriteBody (s : GameState) (nh : Point) (pick : Nat) :
    (consumeFood s nh pick).spriteBody = s.spriteBody :=
  (consumeFood_fields s nh pick).2.1

lemma consumeFood_spriteLimitMsg (s : GameState) (nh : Point) (pick : Nat) :
    (consumeFood s nh pick).spriteLimitMsg = s.spriteLimitMsg :=
  (consumeFood_fields s nh pick).2.2.1

lemma consumeFood_snakeBody (s : GameState) (nh : Point) (pick : Nat) :
    (consumeFood s nh pick).snakeBody = nh :: s.snakeBody.tail :=
  (consumeFood_fields s nh pick).2.2.2.2.1

lemma consumeFood_frameDelay (s : GameState) (nh : Point) (pick : Nat) :
    (consumeFood s nh pick).frameDelay =
      (if (s.score + 10) % 50 = 0 ∧ MIN_DELAY < s.frameDelay
       then s.frameDelay - 1 else s.frameDelay) :=
  (consumeFood_fields s nh pick).2.2.2.2.2

lemma updateGame_score (s : GameState) (allocOk : Bool) (pick : Nat) :
    (updateGame s allocOk pick).score = s.score ∨
    (updateGame s allocOk pick).score = s.score + 10 := by
  unfold updateGame
  split_ifs <;> simp [consumeFood_score]

lemma updateGame_frameDelay (s : GameState) (allocOk : Bool) (pick : Nat) :
    (updateGame s allocOk pick).frameDelay = s.frameDelay ∨
    ((updateGame s allocOk pick).frameDelay = s.frameDelay - 1 ∧
      (updateGame s allocOk pick).score = s.score + 10 ∧
      (updateGame s allocOk pick).score % 50 = 0) := by
  unfold updateGame
  split_ifs with h1 h2 h3 h4 h5
  · left
    rfl
  · left
    rfl
  · left
    rfl
  · simp only [consumeFood_score, consumeFood_frameDelay]
    split_ifs with hif
    · right
      simpa using hif.1
    · left
      simp
  · simp only [consumeFood_score, consumeFood_frameDelay]
    split_ifs with hif
    · right
      simpa using hif.1
    · left
      simp
  · simp only [consumeFood_score, consumeFood_frameDelay]
    split_ifs with hif
    · right
      simpa using hif.1
    · left
      simp
  · left
    rfl

/-! ### Claim theorems -/

/-- C2: for every input sample taken while playing and unpaused, the buffered
direction is never set to the exact opposite of the current direction, and a
request for exactly the reversal direction is rejected, keeping the
previously buffered direction. -/
theorem handleInput_no_reversal (joy : JoypadState) (d nd : Nat) (hd : d < 4)
    (hnd : nd ≠ oppositeDir d) :
    handleInputDir joy d nd ≠ oppositeDir d ∧
    (joy = onlyDirPressed (oppositeDir d) → handleInputDir joy d nd = nd) := by
  obtain ⟨u, r, dn, l⟩ := joy
  interval_cases d <;>
    rcases u <;> rcases r <;> rcases dn <;> rcases l <;>
      simp_all [handleInputDir, oppositeDir, onlyDirPressed,
        DIR_UP, DIR_RIGHT, DIR_DOWN, DIR_LEFT]

/-- C1: in the PLAYING state, if the candidate head cell is out of the
playable bounds, or is a maze-wall cell, or is a live body cell other than
the head itself, the tick transitions to GAME_OVER and mutates nothing else:
head not committed, body not shifted, length, score and food unchanged. -/
theorem collision_aborts_tick (s : GameState) (allocOk : Bool) (pick : Nat)
    (hplay : s.gameState = STATE_PLAYING)
    (hcoll : hitsBorder (newHead s) = true
      ∨ newHead s ∈ s.mazeWalls
      ∨ newHead s ∈ s.snakeBody.drop 1) :
    updateGame s allocOk pick =
      { s with direction := s.nextDirection, gameState := STATE_GAMEOVER } := by
  apply updateGame_collision_eq
  rcases hcoll with h | h | h
  · simp [h]
  · rw [Bool.or_eq_true, checkCollision_iff]
    right
    right
    exact h
  · rw [Bool.or_eq_true, checkCollision_iff]
    right
    left
    exact h

theorem collision_aborts_tick_witness :
    updateGame
        { snakeBody := [⟨38, 14⟩, ⟨37, 14⟩, ⟨36, 14⟩], direction := DIR_RIGHT,
          nextDirection := DIR_RIGHT, food := ⟨5, 5⟩, score := 30,
          gameState := STATE_PLAYING, frameDelay := 8, mazeWalls := [],
          spriteBody := [true, true], spriteLimitMsg := false, youWinMsg := false }
        true 0 =
      { snakeBody := [⟨38, 14⟩, ⟨37, 14⟩, ⟨36, 14⟩], direction := DIR_RIGHT,
        nextDirection := DIR_RIGHT, food := ⟨5, 5⟩, score := 30,
        gameState := STATE_GAMEOVER, frameDelay := 8, mazeWalls := [],
        spriteBody := [true, true], spriteLimitMsg := false, youWinMsg := false } :=
  collision_aborts_tick _ true 0 rfl (Or.inl (by decide))

/-- C8: with the border and wall cases excluded, the tick transitions to the
collision game-over exactly when the candidate head cell equals a pre-shift
body cell at some index in 1..N-1; the head's own cell at index 0 is not
consulted. -/
theorem selfCollision_preShift_indices (s : GameState) (allocOk : Bool) (pick : Nat)
    (hplay : s.gameState = STATE_PLAYING)
    (hb : hitsBorder (newHead s) = false)
    (hw : newHead s ∉ s.mazeWalls) :
    (updateGame s allocOk pick =
        { s with direction := s.nextDirection, gameState := STATE_GAMEOVER }) ↔
      ∃ i, 1 ≤ i ∧ i < s.snakeBody.length ∧ s.snakeBody[i]? = some (newHead s) := by
  rw [← mem_drop_one_iff]
  by_cases hc : checkCollision s.snakeBody s.mazeWalls (newHead s).x (newHead s).y = true
  · constructor
    · intro _
      rcases (checkCollision_iff _ _ _ _).1 hc with h | h
      · exact h
      · exact absurd h hw
    · intro _
      exact updateGame_collision_eq s allocOk pick (by simp [hc])
  · have hcf : checkCollision s.snakeBody s.mazeWalls (newHead s).x (newHead s).y = false :=
      Bool.eq_false_iff.2 hc
    constructor
    · intro heq
      exact absurd heq (updateGame_no_collision_ne s allocOk pick hplay (by simp [hb, hcf]))
    · intro hmem
      exact absurd ((checkCollision_iff _ _ _ _).2 (Or.inl hmem)) hc

theorem selfCollision_preShift_indices_witness :
    updateGame
        { snakeBody := [⟨5, 5⟩, ⟨6, 5⟩, ⟨6, 6⟩, ⟨5, 6⟩], direction := DIR_LEFT,
          nextDirection := DIR_DOWN, food := ⟨20, 20⟩, score := 10,
          gameState := STATE_PLAYING, frameDelay := 8, mazeWalls := [],
          spriteBody := [true, true, true], spriteLimitMsg := false, youWinMsg := false }
        true 0 =
      { snakeBody := [⟨5, 5⟩, ⟨6, 5⟩, ⟨6, 6⟩, ⟨5, 6⟩], direction := DIR_DOWN,
        nextDirection := DIR_DOWN, food := ⟨20, 20⟩, score := 10,
        gameState := STATE_GAMEOVER, frameDelay := 8, mazeWalls := [],
        spriteBody := [true, true, true], spriteLimitMsg := false, youWinMsg := false } :=
  (selfCollision_preShift_indices _ true 0 rfl (by decide) (by decide)).2
    ⟨3, by decide, by decide, by decide⟩

theorem handleInput_no_reversal_witness :
    handleInputDir ⟨true, false, false, false⟩ DIR_DOWN DIR_DOWN = DIR_DOWN :=
  (handleInput_no_reversal ⟨true, false, false, false⟩ DIR_DOWN DIR_DOWN
    (by decide) (by decide)).2 (by decide)

/-- C3 counterexample: when the extra body sprite allocation fails during
growth, the tick does keep playing with the length capped and the notice
drawn, but it returns before committing the new head, so the resulting
position list holds the old head cell twice — the body is NOT a valid
non-overlapping position list, contrary to the claim. -/
theorem spriteLimit_overlap_cex :
    (updateGame spriteLimitState false 0).gameState = STATE_PLAYING ∧
    (updateGame spriteLimitState false 0).spriteLimitMsg = true ∧
    (updateGame spriteLimitState false 0).snakeBody = [⟨20, 14⟩, ⟨20, 14⟩] ∧
    ¬ (updateGame spriteLimitState false 0).snakeBody.Nodup := by
  decide

/-- C3 amended: on a failed body-sprite allocation during growth the tick
aborts with the length capped at one less than before (the number of
segments that still own render slots), surfaces the "SPRITE LIMIT!" notice,
does not transition to GAME_OVER, and leaves score, food, walls and the
existing sprite slots untouched; however the head is not committed, so the
old head cell is left duplicated at body index 1. -/
theorem spriteLimit_caps_growth (s : GameState) (pick : Nat)
    (hplay : s.gameState = STATE_PLAYING)
    (hb : hitsBorder (newHead s) = false)
    (hc : checkCollision s.snakeBody s.mazeWalls (newHead s).x (newHead s).y = false)
    (hfood : newHead s = s.food)
    (hlen : s.snakeBody.length < SNAKE_MAX_LENGTH)
    (halloc : 1 < s.snakeBody.length ∧
      s.spriteBody.getD (s.snakeBody.length - 2) false = false) :
    updateGame s false pick =
      { s with direction := s.nextDirection,
               snakeBody := (s.snakeBody.headD ⟨0, 0⟩ :: s.snakeBody).take
                 (s.snakeBody.length - 1),
               spriteLimitMsg := true } ∧
    (updateGame s false pick).snakeBody.length = s.snakeBody.length - 1 := by
  have heq : updateGame s false pick =
      { s with direction := s.nextDirection,
               snakeBody := (s.snakeBody.headD ⟨0, 0⟩ :: s.snakeBody).take
                 (s.snakeBody.length - 1),
               spriteLimitMsg := true } := by
    unfold updateGame
    have h2 := halloc.2
    simp only [List.getD_eq_getElem?_getD] at h2
    rw [if_neg (by simp [hb, hc]), if_neg (by simp [hc]), if_pos hfood, if_pos hlen,
      if_pos (by simp [halloc.1, h2]), if_pos (by simp)]
  refine ⟨heq, ?_⟩
  rw [heq]
  simp only [List.length_take, List.length_cons]
  omega

theorem spriteLimit_caps_growth_witness :
    updateGame spriteLimitState false 7 =
      { spriteLimitState with direction := DIR_RIGHT,
                              snakeBody := [⟨20, 14⟩, ⟨20, 14⟩],
                              spriteLimitMsg := true } ∧
    (updateGame spriteLimitState false 7).snakeBody.length = 2 := by
  have h := spriteLimit_caps_growth spriteLimitState 7 rfl (by decide) (by decide)
    (by decide) (by decide) ⟨by decide, by decide⟩
  exact ⟨by rw [h.1]; decide, h.2⟩

/-- C9: a food consumption at maximum length behaves exactly as a plain
advance for the body: the length stays at the maximum, the tail shift and
head commit are those of a plain move, no new tail segment is inserted and
the sprite pool is untouched — in particular no render slot is requested, so
the tick result does not depend on the allocation outcome. -/
theorem maxLength_plain_advance (s : GameState) (allocOk : Bool) (pick : Nat)
    (hlen : s.snakeBody.length = SNAKE_MAX_LENGTH)
    (hb : hitsBorder (newHead s) = false)
    (hc : checkCollision s.snakeBody s.mazeWalls (newHead s).x (newHead s).y = false)
    (hfood : newHead s = s.food) :
    (updateGame s allocOk pick).snakeBody = newHead s :: s.snakeBody.dropLast ∧
    (updateGame s allocOk pick).snakeBody.length = SNAKE_MAX_LENGTH ∧
    (updateGame s allocOk pick).spriteBody = s.spriteBody ∧
    updateGame s allocOk pick = updateGame s (!allocOk) pick := by
  have hmax : ¬ s.snakeBody.length < SNAKE_MAX_LENGTH := by omega
  have hred : ∀ a : Bool, updateGame s a pick =
      consumeFood
        { s with direction := s.nextDirection,
                 snakeBody := s.snakeBody.headD ⟨0, 0⟩ :: s.snakeBody.dropLast }
        (newHead s) pick := by
    intro a
    unfold updateGame
    rw [if_neg (by simp [hb, hc]), if_neg (by simp [hc]), if_pos hfood, if_neg hmax]
  have hbody : (updateGame s allocOk pick).snakeBody =
      newHead s :: s.snakeBody.dropLast := by
    rw [hred allocOk, consumeFood_snakeBody]
    rfl
  have hspr : (updateGame s allocOk pick).spriteBody = s.spriteBody := by
    rw [hred allocOk, consumeFood_spriteBody]
  have hind : updateGame s allocOk pick = updateGame s (!allocOk) pick := by
    rw [hred allocOk, hred (!allocOk)]
  refine ⟨hbody, ?_, hspr, hind⟩
  rw [hbody]
  simp only [List.length_cons, List.length_dropLast, hlen]
  decide

theorem maxLength_plain_advance_witness :
    (updateGame maxLenState true 0).snakeBody =
      (⟨11, 10⟩ : Point) :: maxLenState.snakeBody.dropLast ∧
    (updateGame maxLenState true 0).snakeBody.length = SNAKE_MAX_LENGTH ∧
    (updateGame maxLenState true 0).spriteBody = maxLenState.spriteBody ∧
    updateGame maxLenState true 0 = updateGame maxLenState false 0 :=
  maxLength_plain_advance maxLenState true 0 (by decide) (by decide) (by decide)
    (by decide)

/-- C6: when the free-tile scan finds zero free cells, food placement signals
the board-exhaustion win: `generateFood` yields no cell, and the consumption
path sets the game-ended state, displays the win message and leaves the food
position untouched — it neither loops nor places food on an occupied cell. -/
theorem board_exhaustion_win (s : GameState) (nh : Point) (pick : Nat)
    (h : freeTiles s.snakeBody s.mazeWalls = []) :
    generateFood s.snakeBody s.mazeWalls pick = none ∧
    (consumeFood s nh pick).gameState = STATE_GAMEOVER ∧
    (consumeFood s nh pick).youWinMsg = true ∧
    (consumeFood s nh pick).food = s.food := by
  have hgen : generateFood s.snakeBody s.mazeWalls pick = none := by
    unfold generateFood
    simp [h]
  refine ⟨hgen, ?_⟩
  unfold consumeFood
  simp only [hgen]
  split_ifs <;> simp_all

theorem board_exhaustion_win_witness :
    generateFood exhaustedState.snakeBody exhaustedState.mazeWalls 5 = none ∧
    (consumeFood exhaustedState ⟨21, 14⟩ 5).gameState = STATE_GAMEOVER ∧
    (consumeFood exhaustedState ⟨21, 14⟩ 5).youWinMsg = true ∧
    (consumeFood exhaustedState ⟨21, 14⟩ 5).food = exhaustedState.food :=
  board_exhaustion_win exhaustedState ⟨21, 14⟩ 5 (freeTiles_allWalls _)

set_option maxRecDepth 100000 in
/-- C4 counterexample: at game start (with a single horizontal wall segment
at cells (5,3)..(7,3)), `generateFood` can choose the cell currently occupied
by the snake's head: the free-tile scan skips body index 0, so pick 470
lands exactly on the head cell (20,14). -/
theorem food_on_head_cex :
    (initGame [(false, 0, 3, 0)] 470).food = ⟨20, 14⟩ ∧
    (initGame [(false, 0, 3, 0)] 470).snakeBody.headD ⟨0, 0⟩ = ⟨20, 14⟩ := by
  constructor
  · decide
  · decide

/-- C4 amended: a generated food cell is never a body cell at indices 1..N-1
and never a maze-wall cell, but the head's own cell (index 0) is not
excluded by the scan. -/
theorem generateFood_avoids_body_and_walls (snakeBody mazeWalls : List Point)
    (pick : Nat) (f : Point)
    (h : generateFood snakeBody mazeWalls pick = some f) :
    f ∉ snakeBody.drop 1 ∧ f ∉ mazeWalls := by
  have hf : f ∈ freeTiles snakeBody mazeWalls := by
    unfold generateFood at h
    exact List.getElem?_mem h
  rw [mem_freeTiles] at hf
  have := (checkCollision_eq_false_iff snakeBody mazeWalls f.x f.y).1 hf.2
  exact this

set_option maxRecDepth 100000 in
theorem generateFood_avoids_body_and_walls_witness :
    (⟨1, 2⟩ : Point) ∉ initSnake.drop 1 ∧ (⟨1, 2⟩ : Point) ∉ ([] : List Point) :=
  generateFood_avoids_body_and_walls initSnake [] 0 ⟨1, 2⟩ (by decide)

/-- C5 counterexample: the maze generator only skips the configured snake
start cell, not the whole live entity: the horizontal segment drawn with
randoms (0, 15, 11) records the cell (19,14), which is a live body cell of
the freshly initialised snake. -/
theorem wall_overlaps_body_cex :
    (⟨19, 14⟩ : Point) ∈ wallSegCells false 0 15 11 ∧
    (⟨19, 14⟩ : Point) ∈ initSnake := by
  decide

/-- C5 amended: every generated wall segment has length between 3 and 5
cells (either orientation), and no recorded cell equals the snake start cell
(SNAKE_START_X, SNAKE_START_Y); cells coinciding with the rest of the
entity's body are not excluded. -/
theorem wallSeg_length_and_start (iv : Bool) (rLen rX rY : Nat) :
    (3 ≤ 3 + rLen % 3 ∧ 3 + rLen % 3 ≤ 5) ∧
    ∀ p ∈ wallSegCells iv rLen rX rY, p ≠ ⟨SNAKE_START_X, SNAKE_START_Y⟩ := by
  refine ⟨⟨by omega, by have := Nat.mod_lt rLen (show 0 < 3 by omega); omega⟩, ?_⟩
  intro p hp
  unfold wallSegCells at hp
  cases iv <;>
    simp only [Bool.false_eq_true, if_false, if_true, List.mem_filterMap,
      List.mem_range, if_pos] at hp <;>
    obtain ⟨i, hi, hf⟩ := hp <;>
    split_ifs at hf with hb hg <;>
    first
      | exact Option.noConfusion hf
      | · obtain rfl := Option.some.inj hf
          intro heq
          simp only [Point.mk.injEq, SNAKE_START_X, SNAKE_START_Y] at heq
          omega

theorem wallSeg_length_and_start_witness :
    (3 ≤ 3 + 0 % 3 ∧ 3 + 0 % 3 ≤ 5) ∧
    (⟨17, 14⟩ : Point) ≠ ⟨SNAKE_START_X, SNAKE_START_Y⟩ :=
  ⟨(wallSeg_length_and_start false 0 15 11).1,
   (wallSeg_length_and_start false 0 15 11).2 ⟨17, 14⟩ (by decide)⟩

/-- C10: the score starts at 0 on every game start, each tick either leaves
it unchanged or adds exactly 10 (on a completed consumption), every state
reachable by the game loop has a score that is a multiple of 10, and a frame
delay change within a tick happens only on a consumption whose new score is
a multiple of 50 (a single decrement). -/
theorem score_discipline :
    (∀ rs pick, (initGame rs pick).score = 0) ∧
    (∀ s allocOk pick, (updateGame s allocOk pick).score = s.score ∨
        (updateGame s allocOk pick).score = s.score + 10) ∧
    (∀ s, Reachable s → s.score % 10 = 0) ∧
    (∀ s allocOk pick, (updateGame s allocOk pick).frameDelay ≠ s.frameDelay →
        (updateGame s allocOk pick).frameDelay = s.frameDelay - 1 ∧
        (updateGame s allocOk pick).score = s.score + 10 ∧
        (updateGame s allocOk pick).score % 50 = 0) := by
  refine ⟨initGame_score, updateGame_score, ?_, ?_⟩
  · intro s h
    induction h with
    | start rs pick => rw [initGame_score]
    | tick s a p _ ih => rcases updateGame_score s a p with h | h <;> omega
    | input s joy _ _ ih => exact ih
  · intro s a p hne
    rcases updateGame_frameDelay s a p with h | h
    · exact absurd h hne
    · exact h

set_option maxRecDepth 100000 in
theorem score_discipline_witness :
    (initGame [] 0).score % 10 = 0 ∧
    ((updateGame speedUpState true 3).frameDelay = speedUpState.frameDelay - 1 ∧
      (updateGame speedUpState true 3).score = speedUpState.score + 10 ∧
      (updateGame speedUpState true 3).score % 50 = 0) :=
  ⟨score_discipline.2.2.1 (initGame [] 0) (Reachable.start [] 0),
   score_discipline.2.2.2 speedUpState true 3 (by decide)⟩

/-- C7: for every choice of the random draws there are exactly two portal
pairs, both carved into the border (top/bottom row and left/right column),
and teleportation through each pair is bidirectional and single-hop: an
approach into an entry cell relocates to the linked exit cell and an
approach into the exit cell relocates back to the entry cell, in one hop. -/
theorem portal_pairs_roundtrip (cTop cBottom rLeft rRight : Nat) :
    (mkPortals cTop cBottom rLeft rRight).length = 2 ∧
    (∃ a b c d : Int,
      mkPortals cTop cBottom rLeft rRight =
        [⟨⟨a, 1⟩, ⟨b, (GRID_HEIGHT : Int) - 1⟩⟩,
         ⟨⟨0, c⟩, ⟨(GRID_WIDTH : Int) - 1, d⟩⟩]) ∧
    ∀ pr ∈ mkPortals cTop cBottom rLeft rRight,
      resolvePortal (mkPortals cTop cBottom rLeft rRight) pr.entryCell = pr.exitCell ∧
      resolvePortal (mkPortals cTop cBottom rLeft rRight) pr.exitCell = pr.entryCell := by
  have hyL : (3 + rLeft % (GRID_HEIGHT - 6) : Nat) < 27 := by
    have := Nat.mod_lt rLeft (show 0 < GRID_HEIGHT - 6 by decide)
    simp only [GRID_HEIGHT] at this ⊢
    omega
  have hyR : (3 + rRight % (GRID_HEIGHT - 6) : Nat) < 27 := by
    have := Nat.mod_lt rRight (show 0 < GRID_HEIGHT - 6 by decide)
    simp only [GRID_HEIGHT] at this ⊢
    omega
  refine ⟨rfl, ⟨_, _, _, _, rfl⟩, ?_⟩
  intro pr hpr
  simp only [mkPortals, List.mem_cons, List.not_mem_nil, or_false] at hpr
  simp only [mkPortals, GRID_WIDTH, GRID_HEIGHT] at hpr ⊢
  simp only [GRID_HEIGHT] at hyL hyR
  rcases hpr with rfl | rfl
  · refine ⟨?_, ?_⟩
    · simp only [resolvePortal]
      simp
    · simp only [resolvePortal]
      simp
  · refine ⟨?_, ?_⟩
    · simp only [resolvePortal]
      split_ifs with h1 h2
      · exfalso
        simp only [Point.mk.injEq] at h1
        omega
      · exfalso
        simp only [Point.mk.injEq] at h2
        omega
      · rfl
    · simp only [resolvePortal]
      split_ifs with h1 h2 h3
      · exfalso
        simp only [Point.mk.injEq] at h1
        omega
      · exfalso
        simp only [Point.mk.injEq] at h2
        omega
      · exfalso
        simp only [Point.mk.injEq] at h3
        omega
      · rfl

theorem portal_pairs_roundtrip_witness :
    resolvePortal (mkPortals 0 0 0 0) ⟨2, 1⟩ = ⟨2, 27⟩ ∧
    resolvePortal (mkPortals 0 0 0 0) ⟨2, 27⟩ = ⟨2, 1⟩ :=
  (portal_pairs_roundtrip 0 0 0 0).2.2
    ⟨⟨2, 1⟩, ⟨2, 27⟩⟩ (by decide)
